import Mathlib

/-!
# Verification of the bandcamp metadata parser (`beetsplug/bandcamp/_metaguru.py`)

This development shallowly embeds the metadata-normalization engine of the
bandcamp beets plugin: the compiled pattern library (`PATTERNS`), the pure
`Helpers` static methods, and the `Metaguru` class (accessors, classifier,
format reconciler and release assembler).

Python regular expressions are embedded via an explicit, executable
backtracking engine (`RE` / `reMat` / `reSearch` / `reSubAll`) whose
alternation order, greediness and leftmost-search behaviour mirror CPython's
`re` module on the pattern subset actually used by the source (literals,
character classes, ordered alternation, greedy `?`/`*`/`+`, bounded
repetition unrolled as nested greedy options, groups, `^`, `$`, `\b`,
lookahead `(?=...)` and `(?i:...)` regions).  Character classes such as
`\d`, `\s` and `\w` are modelled at ASCII granularity, which coincides with
CPython on the ASCII inputs the theorems below evaluate.

Python exceptions are embedded as `Except PyErr`; `None`-or-value Python
data flows as the `PyVal` JSON universe, with Python truthiness made
explicit (`pyTruthy`).
-/

namespace Bandcamp

/-! ## Character helpers (ASCII models of the Python `str` operations used) -/

def isDigitC (c : Char) : Bool := '0' ≤ c ∧ c ≤ '9'

/-- Python `\s`: space, tab, newline, carriage return, vertical tab, form feed. -/
def isSpaceC (c : Char) : Bool :=
  c = ' ' ∨ c = '\t' ∨ c = '\n' ∨ c = '\r' ∨ c = '\x0b' ∨ c = '\x0c'

/-- Python `\w` at ASCII granularity: letters, digits, underscore. -/
def isWordC (c : Char) : Bool :=
  ('a' ≤ c ∧ c ≤ 'z') ∨ ('A' ≤ c ∧ c ≤ 'Z') ∨ isDigitC c ∨ c = '_'

def toLowerC (c : Char) : Char :=
  if 'A' ≤ c ∧ c ≤ 'Z' then Char.ofNat (c.toNat + 32) else c

def toUpperC (c : Char) : Char :=
  if 'a' ≤ c ∧ c ≤ 'z' then Char.ofNat (c.toNat - 32) else c

def lowerL (l : List Char) : List Char := l.map toLowerC

/-- `needle.isPrefixOf hay` on raw char lists. -/
def prefixL : List Char → List Char → Bool
  | [], _ => true
  | _ :: _, [] => false
  | a :: as, b :: bs => a = b ∧ prefixL as bs

/-- Python `needle in hay` substring test. -/
def containsL (needle : List Char) : List Char → Bool
  | [] => prefixL needle []
  | c :: cs => prefixL needle (c :: cs) ∨ containsL needle cs

/-- Python `str.strip()` (no arguments): remove leading/trailing whitespace. -/
def stripL (l : List Char) : List Char :=
  ((l.dropWhile isSpaceC).reverse.dropWhile isSpaceC).reverse

/-- Python `str.split(sep)` for a single-character separator. -/
def splitOnC (sep : Char) (l : List Char) : List (List Char) :=
  match l with
  | [] => [[]]
  | c :: cs =>
    let rest := splitOnC sep cs
    if c = sep then [] :: rest
    else match rest with
      | [] => [[c]]
      | r :: rs => (c :: r) :: rs

/-- Python `str.rpartition(sep)[-1]`: suffix after the last occurrence of
`sep`, or the whole string when `sep` does not occur. -/
def rpartAfter (sep : List Char) (l : List Char) : List Char :=
  match ((List.range (l.length + 1)).filter (fun i => prefixL sep (l.drop i))).getLast? with
  | some i => l.drop (i + sep.length)
  | none => l

/-! ## The regex engine -/

/-- Abstract syntax of the regular-expression subset used by `PATTERNS`.
Alternation is ordered (left preferred), `opt`/`star`/`plus` are greedy,
`grp` is a capturing group, `bol`/`eol` are `^`/`$` (no MULTILINE),
`wordB` is `\b`, `look` is lookahead `(?=...)`, and `nocase` switches the
subtree to IGNORECASE, mirroring an inline `(?i:...)` region or a pattern
compiled with `re.IGNORECASE`. -/
inductive RE where
  | lit (cs : List Char)
  | cls (p : Char → Bool)
  | anyc
  | cat (a b : RE)
  | alt (a b : RE)
  | opt (a : RE)
  | star (a : RE)
  | plus (a : RE)
  | grp (n : Nat) (a : RE)
  | bol
  | eol
  | wordB
  | look (a : RE)
  | nocase (a : RE)

/-- Group captures: `(index, start, stop)`, most recent first. -/
abbrev Caps := List (Nat × Nat × Nat)

def litAt (ci : Bool) (s : List Char) (i : Nat) : List Char → Option Nat
  | [] => some i
  | c :: cs =>
    match s.get? i with
    | some d => if (if ci then toLowerC c = toLowerC d else c = d)
                then litAt ci s (i + 1) cs else none
    | none => none

def clsAt (ci : Bool) (p : Char → Bool) (c : Char) : Bool :=
  if ci then p c ∨ p (toLowerC c) ∨ p (toUpperC c) else p c

/-- One step of the backtracking matcher, in continuation-passing style.
`s` is the whole subject, `ci` the IGNORECASE flag, `i` the current
position, `g` the captures so far, and `k` the continuation receiving the
position/captures after `r`.  Alternatives are tried in CPython's order:
`alt` left first, `opt`/`star`/`plus` longest first.  A `star` whose body
matched without consuming input stops iterating, as CPython does.  `fuel`
only forces termination; it is chosen large enough at every call site
(`reFuel`). -/
def reMat (s : List Char) (fuel : Nat) (ci : Bool) (r : RE) (i : Nat) (g : Caps)
    (k : Nat → Caps → Option (Nat × Caps)) : Option (Nat × Caps) :=
  match fuel with
  | 0 => none
  | fuel + 1 =>
    match r with
    | .lit cs => match litAt ci s i cs with
        | some j => k j g
        | none => none
    | .cls p => match s.get? i with
        | some c => if clsAt ci p c then k (i + 1) g else none
        | none => none
    | .anyc => match s.get? i with
        | some c => if c = '\n' then none else k (i + 1) g
        | none => none
    | .cat a b => reMat s fuel ci a i g (fun j g' => reMat s fuel ci b j g' k)
    | .alt a b =>
        match reMat s fuel ci a i g k with
        | some res => some res
        | none => reMat s fuel ci b i g k
    | .opt a =>
        match reMat s fuel ci a i g k with
        | some res => some res
        | none => k i g
    | .star a =>
        match reMat s fuel ci a i g
            (fun j g' => if i < j then reMat s fuel ci (.star a) j g' k else k j g') with
        | some res => some res
        | none => k i g
    | .plus a => reMat s fuel ci a i g (fun j g' => reMat s fuel ci (.star a) j g' k)
    | .grp n a => reMat s fuel ci a i g (fun j g' => k j ((n, i, j) :: g'))
    | .bol => if i = 0 then k i g else none
    | .eol => if i = s.length ∨ (i + 1 = s.length ∧ s.get? i = some '\n')
              then k i g else none
    | .wordB =>
        let left := match i with
          | 0 => false
          | j + 1 => match s.get? j with
            | some c => isWordC c
            | none => false
        let right := match s.get? i with
          | some c => isWordC c
          | none => false
        if left ≠ right then k i g else none
    | .look a =>
        match reMat s fuel ci a i g (fun j g' => some (j, g')) with
        | some (_, g') => k i g'
        | none => none
    | .nocase a => reMat s fuel true a i g k

def reSize : RE → Nat
  | .lit cs => cs.length + 1
  | .cls _ => 1
  | .anyc => 1
  | .cat a b => reSize a + reSize b + 1
  | .alt a b => reSize a + reSize b + 1
  | .opt a => reSize a + 1
  | .star a => reSize a + 2
  | .plus a => reSize a + reSize a + 3
  | .grp _ a => reSize a + 1
  | .bol => 1
  | .eol => 1
  | .wordB => 1
  | .look a => reSize a + 1
  | .nocase a => reSize a + 1

/-- A generous fuel bound: the nesting depth of any match never exceeds
pattern size times subject length. -/
def reFuel (r : RE) (s : List Char) : Nat :=
  (reSize r + 2) * (s.length + 2) + 16

/-- Try to match `r` anchored at position `i`. -/
def reMatchAt (r : RE) (s : List Char) (i : Nat) : Option (Nat × Caps) :=
  reMat s (reFuel r s) false r i [] (fun j g => some (j, g))

/-- `re.search`: leftmost successful start position wins.  Returns
`(start, stop, captures)`. -/
def reSearchFrom (r : RE) (s : List Char) : Nat → Nat → Option (Nat × Nat × Caps)
  | _, 0 => none
  | i, fuel + 1 =>
    match reMatchAt r s i with
    | some (j, g) => some (i, j, g)
    | none => if i < s.length then reSearchFrom r s (i + 1) fuel else none

def reSearch (r : RE) (s : List Char) : Option (Nat × Nat × Caps) :=
  reSearchFrom r s 0 (s.length + 1)

/-- The span captured by group `n`, if that group participated in the match. -/
def capSpan (g : Caps) (n : Nat) : Option (Nat × Nat) :=
  match g with
  | [] => none
  | (m, a, b) :: rest => if m = n then some (a, b) else capSpan rest n

def sliceL (s : List Char) (a b : Nat) : List Char := (s.take b).drop a

/-- Text of capture group `n` (`None` when the group did not participate). -/
def capText (s : List Char) (g : Caps) (n : Nat) : Option (List Char) :=
  (capSpan g n).map (fun ab => sliceL s ab.1 ab.2)

/-- `re.sub(r, "", s)`: delete every non-overlapping leftmost match,
restarting after each match (advancing one character past an empty match,
as CPython ≥ 3.7 does). -/
def reSubAllFrom (r : RE) (s : List Char) : Nat → Nat → List Char
  | _, 0 => []
  | i, fuel + 1 =>
    match reSearchFrom r s i (s.length + 1 - i) with
    | none => s.drop i
    | some (a, b, _) =>
      if b > a then sliceL s i a ++ reSubAllFrom r s b fuel
      else sliceL s i a ++ (s.drop a).take 1 ++ reSubAllFrom r s (a + 1) fuel

def reSubAll (r : RE) (s : List Char) : List Char :=
  reSubAllFrom r s 0 (s.length + 2)

/-! ## The pattern library (`PATTERNS` in `_metaguru.py`) -/

def litS (s : String) : RE := .lit s.data

def reSeq (rs : List RE) : RE :=
  match rs with
  | [] => .lit []
  | [r] => r
  | r :: rest => .cat r (reSeq rest)

def reAlts (rs : List RE) : RE :=
  match rs with
  | [] => .lit []
  | [r] => r
  | r :: rest => .alt r (reAlts rest)

def dRE : RE := .cls isDigitC
def sRE : RE := .cls isSpaceC

/-- `_catalognum = ([A-Z][^-.\s\d]+[-.\s]?\d{2,4}(?:[.-]?\d|CD)?)`, with the
surrounding capture group carrying index `n`.  `\d{2,4}` is unrolled as two
mandatory digits followed by greedy options, preserving the longest-first
preference of the bounded repetition. -/
def catalognumCore (n : Nat) : RE :=
  .grp n (reSeq [
    .cls (fun c => 'A' ≤ c ∧ c ≤ 'Z'),
    .plus (.cls (fun c => ¬(c = '-' ∨ c = '.' ∨ isSpaceC c ∨ isDigitC c))),
    .opt (.cls (fun c => c = '-' ∨ c = '.' ∨ isSpaceC c)),
    dRE, dRE, .opt (reSeq [dRE, .opt dRE]),
    .opt (.alt (reSeq [.opt (.cls (fun c => c = '.' ∨ c = '-')), dRE]) (litS "CD"))])

/-- `desc_catalognum`: `(?:Catalogue(?: (?:Number|N[or])?)?|Cat N[or])\.?: ({_catalognum})`.
Group 1 is the explicit wrapper group of the f-string, group 2 the group
inside `_catalognum` itself. -/
def descCatalognumRE : RE :=
  reSeq [
    .alt (reSeq [litS "Catalogue",
                 .opt (reSeq [litS " ",
                              .opt (.alt (litS "Number")
                                         (reSeq [litS "N", .cls (fun c => c = 'o' ∨ c = 'r')]))])])
         (reSeq [litS "Cat N", .cls (fun c => c = 'o' ∨ c = 'r')]),
    .opt (litS "."), litS ": ",
    .grp 1 (catalognumCore 2)]

/-- `quick_catalognum`: `\[{_catalognum}\]`. -/
def quickCatalognumRE : RE :=
  reSeq [litS "[", catalognumCore 1, litS "]"]

/-- `catalognum`: `^{_catalognum}|{_catalognum}$`. -/
def catalognumRE : RE :=
  .alt (reSeq [.bol, catalognumCore 1]) (reSeq [catalognumCore 2, .eol])

/-- `catalognum_excl`: `(?i:vol(ume)?|artists)|202[01]|(^|\s)C\d\d|\d+/\d+`. -/
def catalognumExclRE : RE :=
  reAlts [
    .nocase (.alt (reSeq [litS "vol", .opt (.grp 1 (litS "ume"))]) (litS "artists")),
    reSeq [litS "202", .cls (fun c => c = '0' ∨ c = '1')],
    reSeq [.grp 2 (.alt .bol sRE), litS "C", dRE, dRE],
    reSeq [.plus dRE, litS "/", .plus dRE]]

/-- `digital`: `^DIGI (\d+\.\s?)?|(?i:\s?[\[(](bandcamp )?(digi(tal)? )?(bonus|only|exclusive)[\])])`.
The first alternative stays case-sensitive; only the `_exclusive` part is an
IGNORECASE region. -/
def digitalRE : RE :=
  .alt
    (reSeq [.bol, litS "DIGI ", .opt (.grp 1 (reSeq [.plus dRE, litS ".", .opt sRE]))])
    (.nocase (reSeq [
      .opt sRE,
      .cls (fun c => c = '[' ∨ c = '('),
      .opt (.grp 2 (litS "bandcamp ")),
      .opt (.grp 3 (reSeq [litS "digi", .opt (.grp 4 (litS "tal")), litS " "])),
      .grp 5 (reAlts [litS "bonus", litS "only", litS "exclusive"]),
      .cls (fun c => c = ']' ∨ c = ')')]))

/-- `release_date`: `release[ds] ([\d]{2} [A-Z][a-z]+ [\d]{4})`. -/
def releaseDateRE : RE :=
  reSeq [litS "release", .cls (fun c => c = 'd' ∨ c = 's'), litS " ",
    .grp 1 (reSeq [dRE, dRE, litS " ",
      .cls (fun c => 'A' ≤ c ∧ c ≤ 'Z'),
      .plus (.cls (fun c => 'a' ≤ c ∧ c ≤ 'z')),
      litS " ", dRE, dRE, dRE, dRE])]

/-- `track_name` (compiled with `re.VERBOSE`; the insignificant whitespace of
the pattern text is dropped here):

`((?P<track_alt>(^[ABCDEFGH]{1,3}\d|^\d)\d?)\s?[.-]+(?=[^\d]))?`
`(\s?(?P<artist>[^-]*)(\s-\s))?`
`(?P<title>(\b([^\s]-|-[^\s]|[^-])+$))`

Groups are numbered by opening parenthesis: 1 = the whole optional alt-index
part, 2 = `track_alt`, 3 = its inner alternation, 4 = the optional artist
part, 5 = `artist`, 6 = the ` - ` separator, 7 = `title`, 8 = the body of
`title`, 9 = the repeated token.  `[ABCDEFGH]{1,3}` is unrolled greedily. -/
def trackNameRE : RE :=
  let letAH : RE := .cls (fun c => 'A' ≤ c ∧ c ≤ 'H')
  reSeq [
    .opt (.grp 1 (reSeq [
      .grp 2 (reSeq [
        .grp 3 (.alt (reSeq [.bol, letAH, .opt (reSeq [letAH, .opt letAH]), dRE])
                     (reSeq [.bol, dRE])),
        .opt dRE]),
      .opt sRE,
      .plus (.cls (fun c => c = '.' ∨ c = '-')),
      .look (.cls (fun c => ¬ isDigitC c))])),
    .opt (.grp 4 (reSeq [
      .opt sRE,
      .grp 5 (.star (.cls (fun c => c ≠ '-'))),
      .grp 6 (reSeq [sRE, litS "-", sRE])])),
    .grp 7 (.grp 8 (reSeq [
      .wordB,
      .plus (.grp 9 (reAlts [
        reSeq [.cls (fun c => ¬ isSpaceC c), litS "-"],
        reSeq [litS "-", .cls (fun c => ¬ isSpaceC c)],
        .cls (fun c => c ≠ '-')])),
      .eol]))]

/-- `vinyl_name`:
`(?P<count>[1-5]|[Ss]ingle|[Dd]ouble|[Tt]riple)(LP)? ?x? ?((7|10|12)" )?Vinyl`. -/
def vinylNameRE : RE :=
  reSeq [
    .grp 1 (reAlts [
      .cls (fun c => '1' ≤ c ∧ c ≤ '5'),
      reSeq [.cls (fun c => c = 'S' ∨ c = 's'), litS "ingle"],
      reSeq [.cls (fun c => c = 'D' ∨ c = 'd'), litS "ouble"],
      reSeq [.cls (fun c => c = 'T' ∨ c = 't'), litS "riple"]]),
    .opt (.grp 2 (litS "LP")),
    .opt (litS " "), .opt (litS "x"), .opt (litS " "),
    .opt (.grp 3 (reSeq [.grp 4 (reAlts [litS "7", litS "10", litS "12"]),
                         litS "\" "])),
    litS "Vinyl"]

/-- The `ignore` pattern of `track_artists`: ` f(ea)?t\. .*`. -/
def featRE : RE :=
  reSeq [litS " f", .opt (.grp 1 (litS "ea")), litS "t. ", .star .anyc]

/-! ## The Python value universe and exceptions -/

/-- Python exceptions raised (or caught) along the modelled paths. -/
inductive PyErr where
  | keyError
  | typeError
  | attributeError
  | valueError
  | lookupError
deriving DecidableEq

/-- JSON-shaped Python data as it flows through `Metaguru`: `null` is Python
`None`, `int` covers the (integral) numbers appearing in the metadata block
(track durations are floored to integers by `get_duration` anyway). -/
inductive PyVal where
  | null
  | bool (b : Bool)
  | int (n : Int)
  | str (s : String)
  | list (xs : List PyVal)
  | dict (kvs : List (String × PyVal))

/-- Python truthiness. -/
def pyTruthy : PyVal → Bool
  | .null => false
  | .bool b => b
  | .int n => n ≠ 0
  | .str s => s ≠ ""
  | .list xs => !xs.isEmpty
  | .dict kvs => !kvs.isEmpty

def alookup : List (String × PyVal) → String → Option PyVal
  | [], _ => none
  | (k, v) :: rest, key => if k = key then some v else alookup rest key

/-- Python dict assignment `d[k] = v`: replace in place, else append
(CPython dicts preserve insertion order and keep the original position of a
re-assigned key). -/
def aset : List (String × PyVal) → String → PyVal → List (String × PyVal)
  | [], key, v => [(key, v)]
  | (k, w) :: rest, key, v =>
    if k = key then (k, v) :: rest else (k, w) :: aset rest key v

/-- Subscript `v[k]` with a string key: `KeyError` on a missing key,
`TypeError` when `v` is not a dict. -/
def pySub (v : PyVal) (k : String) : Except PyErr PyVal :=
  match v with
  | .dict kvs =>
    match alookup kvs k with
    | some x => .ok x
    | none => .error .keyError
  | _ => .error .typeError

/-- `v.get(k, dflt)`: `AttributeError` when `v` is not a dict. -/
def pyGet (v : PyVal) (k : String) (dflt : PyVal) : Except PyErr PyVal :=
  match v with
  | .dict kvs => .ok ((alookup kvs k).getD dflt)
  | _ => .error .attributeError

/-- `d[k] = v` as a whole-value update; `TypeError` when the target is not a
dict. -/
def pySetItem (d : PyVal) (k : String) (v : PyVal) : Except PyErr PyVal :=
  match d with
  | .dict kvs => .ok (.dict (aset kvs k v))
  | _ => .error .typeError

/-- `d.update(upds)`; `AttributeError` when the target is not a dict. -/
def pyUpdate (d : PyVal) (upds : List (String × PyVal)) : Except PyErr PyVal :=
  match d with
  | .dict kvs => .ok (.dict (upds.foldl (fun acc kv => aset acc kv.1 kv.2) kvs))
  | _ => .error .attributeError

/-- Use a value where the source immediately applies a string operation
(`in`, `re.sub`, slicing): a non-string raises `TypeError` there. -/
def asStr (v : PyVal) : Except PyErr String :=
  match v with
  | .str s => .ok s
  | _ => .error .typeError

/-- Use a value where the source immediately calls a string method
(`.rpartition`, `.startswith`): a non-string raises `AttributeError`. -/
def asStrA (v : PyVal) : Except PyErr String :=
  match v with
  | .str s => .ok s
  | _ => .error .attributeError

def isDict : PyVal → Bool
  | .dict _ => true
  | _ => false

/-! ## `Helpers` (the pure static methods) -/

def ofChars (l : List Char) : String := ⟨l⟩

namespace Helpers

/-- Result record of `check_digital_only`: the Python dict
`{digital_only: bool}` optionally carrying the stripped `name`. -/
structure DigiCheck where
  digital_only : Bool
  name : Option String
deriving DecidableEq

/-- `Helpers.check_digital_only`. -/
def check_digital_only (name : String) : DigiCheck :=
  let no_digi_only_name := ofChars (Bandcamp.reSubAll digitalRE name.data)
  if no_digi_only_name ≠ name then ⟨true, some no_digi_only_name⟩
  else ⟨false, none⟩

/-- Result record of `parse_track_name`: the `groupdict()` of the
`track_name` pattern (`none` = a group that did not participate / the
explicit `None` of the fallback dict). -/
structure TrackName where
  track_alt : Option String
  artist : Option String
  title : Option String
deriving DecidableEq

/-- `Helpers.parse_track_name`: `groupdict()` of the match, with the
`AttributeError` fallback `{"title": name, "artist": None, "track_alt": None}`
when the search fails. -/
def parse_track_name (name : String) : TrackName :=
  match reSearch trackNameRE name.data with
  | some (_, _, g) =>
    ⟨(capText name.data g 2).map ofChars,
     (capText name.data g 5).map ofChars,
     (capText name.data g 7).map ofChars⟩
  | none => ⟨none, none, some name⟩

/-- One `(pattern, string)` attempt of `parse_catalognum`: search after
removing `catalognum_excl` matches, then take the first non-empty capture
group (group indices in `groups()` order); `none` both on a failed search
and on the `StopIteration` of an all-empty group list. -/
def catalognumAttempt (r : RE) (s : String) (gids : List Nat) : Option String :=
  match reSearch r (reSubAll catalognumExclRE s.data) with
  | none => none
  | some (_, _, g) =>
    (gids.firstM (fun n =>
      match capText (reSubAll catalognumExclRE s.data) g n with
      | some t => if t ≠ [] then some t else none
      | none => none)).map ofChars

/-- `Helpers.parse_catalognum`. -/
def parse_catalognum (album disctitle description : String) : String :=
  match catalognumAttempt descCatalognumRE description [1, 2] with
  | some t => t
  | none =>
  match catalognumAttempt quickCatalognumRE album [1] with
  | some t => t
  | none =>
  match catalognumAttempt catalognumRE disctitle [1, 2] with
  | some t => t
  | none =>
  match catalognumAttempt catalognumRE album [1, 2] with
  | some t => t
  | none => ""

/-- `Helpers.parse_release_date`: the first capture group of the
`release_date` pattern, "" when the search fails. -/
def parse_release_date (string : String) : String :=
  match reSearch releaseDateRE string.data with
  | some (_, _, g) => ((capText string.data g 1).map ofChars).getD ""
  | none => ""

/-- `Helpers.get_vinyl_count`: `int(count)` when the captured `count` is all
digits, otherwise the `conv` table (`single`/`double`/`triple`, after
`.lower()`), whose miss would be a `KeyError`; 1 when the `vinyl_name`
search fails.  The table cannot actually miss because the pattern only
captures those three words or a digit. -/
def get_vinyl_count (name : String) : Except PyErr Int :=
  match reSearch vinylNameRE name.data with
  | none => .ok 1
  | some (_, _, g) =>
    match capText name.data g 1 with
    | none => .ok 1
    | some count =>
      if count ≠ [] ∧ count.all isDigitC then
        .ok (count.foldl (fun acc c => 10 * acc + ((c.toNat : Int) - ('0'.toNat : Int))) 0)
      else
        match lowerL count with
        | ['s', 'i', 'n', 'g', 'l', 'e'] => .ok 1
        | ['d', 'o', 'u', 'b', 'l', 'e'] => .ok 2
        | ['t', 'r', 'i', 'p', 'l', 'e'] => .ok 3
        | _ => .error .keyError

/-- The dynamically built pattern of `clean_up_album_name`: the fixed
exclusions plus the provided arguments (`re.escape`d, i.e. literal), joined
into the five alternation templates, compiled with `re.IGNORECASE`. -/
def cleanAlbumRE (args : List String) : RE :=
  let excl : List String :=
    ["E.P.", "various artists", "limited edition", "free download"] ++ args
  let exclA (n : Nat) : RE := .grp n (reAlts (excl.map litS))
  .nocase (reAlts [
    reSeq [litS " ", .opt (.cls (fun c => c = '[' ∨ c = '(')),
           .grp 1 (reSeq [.cls (fun c => c = 'E' ∨ c = 'L'), litS "P"]),
           .opt (.cls (fun c => c = ']' ∨ c = ')'))],
    reSeq [exclA 2, sRE, .plus (.cls (fun c => c = '|' ∨ c = '/')), .opt sRE],
    reSeq [.cls (fun c => c = '[' ∨ c = '('), exclA 3, .cls (fun c => c = ']' ∨ c = ')')],
    reSeq [.grp 4 (reSeq [sRE, litS "-", sRE]), exclA 5],
    reSeq [exclA 6, .grp 7 (reSeq [.opt sRE, litS "-", sRE])],
    reSeq [litS " ", exclA 8, .eol]])

/-- `Helpers.clean_up_album_name`: `re.sub(pat, "", name).strip() or
(args[0] if args else name)`. -/
def clean_up_album_name (name : String) (args : List String) : String :=
  let cleaned := stripL (reSubAll (cleanAlbumRE args) name.data)
  if cleaned = [] then (args.headD name) else ofChars cleaned

/-- `Helpers.get_duration`: scan `additionalProperty` for the
`duration_secs` entry; 0 when absent.  An empty non-list iterates zero
times; a non-empty non-list fails on `item.get`/`item["..."]` as in
CPython. -/
def get_duration (source : PyVal) : Except PyErr Int := do
  let v ← pyGet source "additionalProperty" (.list [])
  match v with
  | .list items =>
    items.foldlM (fun acc item =>
      match acc with
      | some n => pure (some n)
      | none => do
        let nm ← pyGet item "name" .null
        match nm with
        | .str s =>
          if s = "duration_secs" then
            match ← pyGet item "value" (.int 0) with
            | .int n => pure (some n)
            | _ => .error .typeError
          else pure none
        | _ => pure none) (none : Option Int) >>= (fun r => pure (r.getD 0))
  | .str "" => pure 0
  | .dict [] => pure 0
  | .str _ => .error .attributeError
  | .dict _ => .error .attributeError
  | _ => .error .typeError

end Helpers

/-! ## Dates (`datetime.strptime(..., "%d %B %Y").date()` and `date` ordering) -/

structure PyDate where
  year : Int
  month : Int
  day : Int
deriving DecidableEq

/-- `date.__lt__`: lexicographic. -/
def dateLt (a b : PyDate) : Bool :=
  a.year < b.year ∨ (a.year = b.year ∧
    (a.month < b.month ∨ (a.month = b.month ∧ a.day < b.day)))

/-- `%B`: full English month names, matched case-insensitively as CPython's
`_strptime` does. -/
def monthNum (m : List Char) : Option Int :=
  match ofChars (lowerL m) with
  | "january" => some 1
  | "february" => some 2
  | "march" => some 3
  | "april" => some 4
  | "may" => some 5
  | "june" => some 6
  | "july" => some 7
  | "august" => some 8
  | "september" => some 9
  | "october" => some 10
  | "november" => some 11
  | "december" => some 12
  | _ => none

def isLeap (y : Int) : Bool :=
  (y % 4 = 0 ∧ y % 100 ≠ 0) ∨ y % 400 = 0

def daysInMonth (y m : Int) : Int :=
  if m = 2 then (if isLeap y then 29 else 28)
  else if m = 4 ∨ m = 6 ∨ m = 9 ∨ m = 11 then 30
  else 31

def natOfDigits (l : List Char) : Int :=
  l.foldl (fun acc c => 10 * acc + ((c.toNat : Int) - ('0'.toNat : Int))) 0

/-- `datetime.strptime(s, "%d %B %Y").date()`: 1–2 digit day, full month
name, 1–4 digit year, single literal spaces, whole string consumed;
`ValueError` on any mismatch, and on a calendar-invalid or year-0 date. -/
def strptimeDMY (s : String) : Except PyErr PyDate :=
  match splitOnC ' ' s.data with
  | [d, m, y] =>
    if d ≠ [] ∧ d.length ≤ 2 ∧ d.all isDigitC ∧
       y ≠ [] ∧ y.length ≤ 4 ∧ y.all isDigitC then
      match monthNum m with
      | some mo =>
        let day := natOfDigits d
        let yr := natOfDigits y
        if 1 ≤ day ∧ day ≤ daysInMonth yr mo ∧ 1 ≤ yr then
          .ok ⟨yr, mo, day⟩
        else .error .valueError
      | none => .error .valueError
    else .error .valueError
  | _ => .error .valueError

/-! ## External country data

The `country` accessor consults the external `pycountry` package.  The two
lookups below model the fragment of its ISO 3166 dataset [pycountry]
reachable from the theorems of this file: `countries.get(name=...)`
returning the `alpha_2` code of an exactly-named country (or nothing), and
`subdivisions.lookup(...)` returning the owning country of an
exactly-named subdivision (raising `LookupError` on a miss, which the
model reports as `none`). -/

def COUNTRY_OVERRIDES : List (String × String) :=
  [("Russia", "RU"), ("The Netherlands", "NL"), ("UK", "GB")]

def pycountryAlpha2 : String → Option String
  | "Germany" => some "DE"
  | "Norway" => some "NO"
  | "Sweden" => some "SE"
  | "Russian Federation" => some "RU"
  | "Netherlands" => some "NL"
  | _ => none

def pycountrySubdivisionCountry : String → Option String
  | "Washington" => some "US"
  | "California" => some "US"
  | "Missouri" => some "US"
  | _ => none

/-! ## The `Metaguru` class -/

def MEDIA_MAP : List (String × String) :=
  [("VinylFormat", "Vinyl"), ("CDFormat", "CD"),
   ("CassetteFormat", "Cassette"), ("DigitalFormat", "Digital Media")]

def DEFAULT_MEDIA : String := "Digital Media"

def mediaMapLookup : List (String × String) → String → Option String
  | [], _ => none
  | (k, v) :: rest, key => if k = key then some v else mediaMapLookup rest key

/-- `dict.get` on a string-to-string table (no default). -/
def alookupS : List (String × String) → String → Option String
  | [], _ => none
  | (k, v) :: rest, key => if k = key then some v else alookupS rest key

/-- The `Metaguru` instance state.  `__init__` stores the page text and the
preferred-media configuration and decodes the embedded metadata block into
`meta` (`{}`, i.e. `.dict []`, when the `datePublished` line is absent);
`media_` is `self._media` (`{}` until `album` selects a format),
`all_medias` the key set of `self._all_medias` (`{DEFAULT_MEDIA}`
initially), `singleton_` the `self._singleton` flag. -/
structure Metaguru where
  html : String
  preferred_media : String := DEFAULT_MEDIA
  meta : PyVal := .dict []
  media_ : PyVal := .dict []
  all_medias : List String := [DEFAULT_MEDIA]
  singleton_ : Bool := false

namespace Metaguru

/-- `self.album_name = self.meta["name"]`. -/
def album_name (g : Metaguru) : Except PyErr String :=
  pySub g.meta "name" >>= asStr

/-- `self.label = self.meta["publisher"]["name"]`. -/
def label (g : Metaguru) : Except PyErr String := do
  let p ← pySub g.meta "publisher"
  pySub p "name" >>= asStr

/-- `self.album_id = self.meta["@id"]`. -/
def album_id (g : Metaguru) : Except PyErr String :=
  pySub g.meta "@id" >>= asStr

/-- `artist_id`: `meta["byArtist"]["@id"]`, falling back to
`meta["publisher"]["@id"]` on a `KeyError` (and only on a `KeyError`). -/
def artist_id (g : Metaguru) : Except PyErr String :=
  match (do let a ← pySub g.meta "byArtist"; pySub a "@id") with
  | .ok v => asStr v
  | .error .keyError => do
    let p ← pySub g.meta "publisher"
    pySub p "@id" >>= asStr
  | .error e => .error e

/-- `media`: `MEDIA_MAP.get(self._media.get("musicReleaseFormat", ""),
DEFAULT_MEDIA)`.  A non-string (but hashable) stored format falls to the
default; an unhashable one would raise `TypeError`. -/
def media (g : Metaguru) : Except PyErr String := do
  let v ← pyGet g.media_ "musicReleaseFormat" (.str "")
  match v with
  | .str s => pure ((mediaMapLookup MEDIA_MAP s).getD DEFAULT_MEDIA)
  | .list _ => .error .typeError
  | .dict _ => .error .typeError
  | _ => pure DEFAULT_MEDIA

/-- `disctitle`: "" for digital media, else `self._media.get("name", "")`. -/
def disctitle (g : Metaguru) : Except PyErr String := do
  let m ← media g
  if m = DEFAULT_MEDIA then pure ""
  else pyGet g.media_ "name" (.str "") >>= asStr

/-- `mediums`: the vinyl disc count of the disc title for vinyl, else 1. -/
def mediums (g : Metaguru) : Except PyErr Int := do
  let m ← media g
  if m = "Vinyl" then do
    let dt ← disctitle g
    Helpers.get_vinyl_count dt
  else pure 1

/-- One step of the `description` filter: keep a non-empty string value not
starting with the generic boilerplate; a truthy non-string would hit
`.startswith` and raise `AttributeError`. -/
def descKeep (v : PyVal) : Except PyErr (Option String) :=
  match v with
  | .str s =>
    .ok (if s ≠ "" ∧ ¬ s.startsWith "Includes high-quality dow" then some s else none)
  | v => if pyTruthy v then .error .attributeError else .ok none

/-- `description`: the first of album-level and active-format-level
descriptions that passes the filter, else "". -/
def description (g : Metaguru) : Except PyErr String := do
  let d1 ← pyGet g.meta "description" (.str "")
  match ← descKeep d1 with
  | some s => pure s
  | none => do
    let d2 ← pyGet g.media_ "description" (.str "")
    match ← descKeep d2 with
    | some s => pure s
    | none => pure ""

/-- `catalognum`: `parse_catalognum(album_name, disctitle, description)`. -/
def catalognum (g : Metaguru) : Except PyErr String := do
  let an ← album_name g
  let dt ← disctitle g
  let ds ← description g
  pure (Helpers.parse_catalognum an dt ds)

/-- `release_date`: `strptime(parse_release_date(html), "%d %B %Y")` — note
that a date-less page makes `parse_release_date` return "" and `strptime`
then raises `ValueError`. -/
def release_date (g : Metaguru) : Except PyErr PyDate :=
  strptimeDMY (Helpers.parse_release_date g.html)

/-- The `or`-chain of `country`: the override table first, then the
`pycountry` country lookup, then the subdivision lookup (whose miss raises
`LookupError`). -/
def resolveCountryName (name : String) : Except PyErr String :=
  match alookupS COUNTRY_OVERRIDES name with
  | some c => .ok c
  | none =>
    match pycountryAlpha2 name with
    | some c => .ok c
    | none =>
      match pycountrySubdivisionCountry name with
      | some c => .ok c
      | none => .error .lookupError

/-- The `try` body of `country`: the publisher founding location's last
comma segment, NFKD normalised and ASCII-encoded (the identity on the
ASCII strings handled here), resolved through `resolveCountryName`. -/
def countryBody (g : Metaguru) : Except PyErr String := do
  let p ← pySub g.meta "publisher"
  let fl ← pySub p "foundingLocation"
  let nv ← pySub fl "name"
  let s ← asStrA nv
  resolveCountryName (ofChars (rpartAfter ", ".data s.data))

/-- `country`: `countryBody`, with `KeyError`/`ValueError`/`LookupError`
falling back to `WORLDWIDE = "XW"`. -/
def country (g : Metaguru) : Except PyErr String :=
  match countryBody g with
  | .ok c => .ok c
  | .error .keyError => .ok "XW"
  | .error .valueError => .ok "XW"
  | .error .lookupError => .ok "XW"
  | .error e => .error e

/-- The dict updates performed by `track.update(check_digital_only(...))`. -/
def digiUpdates (d : Helpers.DigiCheck) : List (String × PyVal) :=
  match d.name with
  | some n => [("digital_only", .bool d.digital_only), ("name", .str n)]
  | none => [("digital_only", .bool d.digital_only)]

/-- The dict updates performed by `track.update(parse_track_name(...))`
(`groupdict` always carries all three named groups, `None` included). -/
def tnUpdates (t : Helpers.TrackName) : List (String × PyVal) :=
  [("track_alt", (t.track_alt.map PyVal.str).getD .null),
   ("artist", (t.artist.map PyVal.str).getD .null),
   ("title", (t.title.map PyVal.str).getD .null)]

/-- The raw tracklist: `meta["track"].get("itemListElement", [])`, or the
synthetic single entry `[{"item": meta}]` for a singleton.  Iterating an
empty non-list produces no tracks; a non-empty non-list fails on
`raw_track["item"]` as in CPython. -/
def tracksRaw (g : Metaguru) : Except PyErr (List PyVal) :=
  if g.singleton_ then .ok [.dict [("item", g.meta)]]
  else do
    let t ← pySub g.meta "track"
    let v ← pyGet t "itemListElement" (.list [])
    match v with
    | .list xs => pure xs
    | .str "" => pure []
    | .dict [] => pure []
    | _ => .error .typeError

/-- The per-entry body of the `tracks` loop. -/
def processTrack (raw : PyVal) : Except PyErr PyVal := do
  let item ← pySub raw "item"
  let posv ← pyGet raw "position" .null
  let track ← pySetItem item "position" (if pyTruthy posv then posv else .int 1)
  let nm ← pySub track "name" >>= asStr
  let track ← pyUpdate track (digiUpdates (Helpers.check_digital_only nm))
  let nm2 ← pySub track "name" >>= asStr
  let track ← pyUpdate track (tnUpdates (Helpers.parse_track_name nm2))
  let av ← pyGet track "artist" .null
  let bv ← pyGet track "byArtist" .null
  if ¬ pyTruthy av ∧ isDict bv then do
    let an ← pySub bv "name"
    pySetItem track "artist" an
  else pure track

end Metaguru

/-- Elementwise left-to-right traversal failing at the first error (the
evaluation order of a Python loop or list comprehension). -/
def mapExcept (f : α → Except PyErr β) : List α → Except PyErr (List β)
  | [] => .ok []
  | a :: as => do
    let b ← f a
    let bs ← mapExcept f as
    pure (b :: bs)

namespace Metaguru

/-- `tracks`: the processed tracklist. -/
def tracks (g : Metaguru) : Except PyErr (List PyVal) := do
  let raw ← tracksRaw g
  mapExcept processTrack raw

/-- Deduplicate, preserving first occurrences (the membership structure of a
Python `set`; iteration order of a `set` is unspecified, and nothing
modelled here depends on it beyond membership and size). -/
def dedupKeep (l : List String) : List String :=
  l.foldl (fun acc s => if s ∈ acc then acc else acc ++ [s]) []

/-- `track_artists`: per track, `t.get("artist") or ""` with the
` f(ea)?t\. .*` suffix removed, collected into a set with "" discarded. -/
def track_artists (g : Metaguru) : Except PyErr (List String) := do
  let ts ← tracks g
  let names ← mapExcept (fun t => do
    let av ← pyGet t "artist" .null
    let s ← if pyTruthy av then asStr av else pure ""
    pure (ofChars (reSubAll featRE s.data))) ts
  pure ((dedupKeep names).filter (· ≠ ""))

/-- `is_lp`: "LP" occurs in the album name or in the disc title. -/
def is_lp (g : Metaguru) : Except PyErr Bool := do
  let an ← album_name g
  if containsL "LP".data an.data then pure true
  else do
    let dt ← disctitle g
    pure (containsL "LP".data dt.data)

/-- Set equality of `_all_medias` against `{DEFAULT_MEDIA}`. -/
def allMediasIsDefaultOnly (g : Metaguru) : Bool :=
  g.all_medias.all (· = DEFAULT_MEDIA) ∧ DEFAULT_MEDIA ∈ g.all_medias

/-- `is_ep`: "EP" in the album name or disc title, or a short release that
advertises more than the digital format. -/
def is_ep (g : Metaguru) : Except PyErr Bool := do
  let an ← album_name g
  if containsL "EP".data an.data then pure true
  else do
    let dt ← disctitle g
    if containsL "EP".data dt.data then pure true
    else if ¬ allMediasIsDefaultOnly g then do
      let ts ← tracks g
      pure (ts.length < 5)
    else pure false

/-- `is_va`: "various artists" in the lowercased album name, or more than
one distinct track artist on a release of more than four tracks. -/
def is_va (g : Metaguru) : Except PyErr Bool := do
  let an ← album_name g
  if containsL "various artists".data (lowerL an.data) then pure true
  else do
    let ta ← track_artists g
    if ta.length > 1 then do
      let ts ← tracks g
      pure (ts.length > 4)
    else pure false

/-- `bandcamp_albumartist`: `meta["byArtist"]["name"]`. -/
def bandcamp_albumartist (g : Metaguru) : Except PyErr String := do
  let a ← pySub g.meta "byArtist"
  pySub a "name" >>= asStr

/-- `albumartist`: "Various Artists" for a VA release; the sole distinct
track artist if exactly one exists; else the page-level artist. -/
def albumartist (g : Metaguru) : Except PyErr String := do
  if ← is_va g then pure "Various Artists"
  else do
    let ta ← track_artists g
    match ta with
    | [a] => pure a
    | _ => bandcamp_albumartist g

/-- `albumtype`: "single" for singletons, else "album" for LPs, else
"compilation" for various-artists releases, else "ep". -/
def albumtype (g : Metaguru) : Except PyErr String := do
  if g.singleton_ then pure "single"
  else if ← is_lp g then pure "album"
  else if ← is_va g then pure "compilation"
  else pure "ep"

/-- `clean_album_name`: `clean_up_album_name(album_name, *args)` where
`args` is the set `{catalognum, label} - {""}`, plus the album artist for
non-singletons.  A Python set unpacks in unspecified order; the model fixes
the insertion order (catalognum, label, album artist), and the concrete
pages evaluated below are insensitive to it. -/
def clean_album_name (g : Metaguru) : Except PyErr String := do
  let cat ← catalognum g
  let lbl ← label g
  let base := dedupKeep ([cat, lbl].filter (· ≠ ""))
  let args ←
    if ¬ g.singleton_ then do
      let aa ← albumartist g
      pure (if aa ∈ base then base else base ++ [aa])
    else pure base
  let an ← album_name g
  pure (Helpers.clean_up_album_name an args)

end Metaguru

/-- The `TrackInfo` record assembled by `Metaguru._trackinfo` (the fields it
passes; the version-conditional album-level extras of the singleton path
under `NEW_BEETS` belong to the host-API shim and are not modelled). -/
structure TrackInfo where
  data_source : String
  media : String
  data_url : String
  artist_id : String
  title : PyVal
  track_id : PyVal
  artist : PyVal
  index : PyVal
  length : Int
  track_alt : PyVal
  disctitle : PyVal
  medium : Int
  medium_index : PyVal
  medium_total : Int

/-- The `AlbumInfo` record assembled by `Metaguru.albuminfo`. -/
structure AlbumInfo where
  data_source : String
  media : String
  data_url : String
  artist_id : String
  year : Int
  month : Int
  day : Int
  label : String
  catalognum : String
  albumtype : String
  album : String
  albumstatus : String
  country : String
  artist : String
  album_id : String
  va : Bool
  mediums : Int
  tracks : List TrackInfo

namespace Metaguru

/-- `kwargs.pop(key, None) or track.get(key2)`: the kwarg when truthy, else
the track field. -/
def kwOrGet (kw : Option PyVal) (track : PyVal) (key : String) : Except PyErr PyVal :=
  if pyTruthy (kw.getD .null) then .ok (kw.getD .null) else pyGet track key .null

/-- `track.get("artist") or self.bandcamp_albumartist`. -/
def artistOf (g : Metaguru) (track : PyVal) : Except PyErr PyVal := do
  let av ← pyGet track "artist" .null
  if pyTruthy av then pure av
  else do
    let s ← bandcamp_albumartist g
    pure (PyVal.str s)

/-- `_trackinfo(track, medium_total, **kwargs)`: `kw_track_id`/`kw_index`
are the optional `track_id`/`index` kwargs (popped first); the remaining
field expressions are evaluated in the order CPython evaluates the
constructor arguments (`_common` first). -/
def trackinfo (g : Metaguru) (track : PyVal) (medium_total : Int)
    (kw_track_id kw_index : Option PyVal) : Except PyErr TrackInfo := do
  let idx ← kwOrGet kw_index track "position"
  let m ← media g
  let did ← album_id g
  let aid ← artist_id g
  let title ← pyGet track "title" .null
  let tid ← kwOrGet kw_track_id track "@id"
  let artist ← artistOf g track
  let len ← Helpers.get_duration track
  let ta ← pyGet track "track_alt" .null
  let dt ← disctitle g
  pure { data_source := "bandcamp", media := m, data_url := did,
         artist_id := aid, title := title, track_id := tid, artist := artist,
         index := idx, length := len, track_alt := ta,
         disctitle := if dt = "" then .null else .str dt,
         medium := 1, medium_index := idx, medium_total := medium_total }

/-- `singleton`: parse the album name itself as a track name over the
top-level metadata block, with `track_id = album_id` and `index = 1`. -/
def singleton (g : Metaguru) : Except PyErr TrackInfo := do
  let g := { g with singleton_ := true }
  let an ← album_name g
  let track ← pyUpdate g.meta (tnUpdates (Helpers.parse_track_name an))
  let aid ← album_id g
  trackinfo g track 1 (some (.str aid)) (some (.int 1))

/-- `Except`-monadic filter preserving order (the list comprehension of
`albuminfo`). -/
def filterNotDigital : List PyVal → Except PyErr (List PyVal)
  | [] => .ok []
  | t :: ts => do
    let d ← pySub t "digital_only"
    let rest ← filterNotDigital ts
    pure (if pyTruthy d then rest else t :: rest)

/-- The track filter of `albuminfo`: keep every track for digital media or
when all tracks were requested, else drop digital-only tracks. -/
def keepTracks (m : String) (include_all : Bool) (ts : List PyVal) :
    Except PyErr (List PyVal) :=
  if m = DEFAULT_MEDIA ∨ include_all then .ok ts else filterNotDigital ts

/-- `albuminfo(include_all)`: keep all tracks for digital media or on
request, else drop digital-only tracks; the filtered count is the
`medium_total` of every track. `today` stands for `date.today()` in the
`albumstatus` comparison. -/
def albuminfo (g : Metaguru) (include_all : Bool) (today : PyDate) :
    Except PyErr AlbumInfo := do
  let m ← media g
  let ts ← tracks g
  let filtered ← keepTracks m include_all ts
  let medium_total : Int := filtered.length
  let infos ← mapExcept (fun t => trackinfo g t medium_total none none) filtered
  let did ← album_id g
  let aid ← artist_id g
  let rd ← release_date g
  let lbl ← label g
  let cat ← catalognum g
  let atype ← albumtype g
  let alb ← clean_album_name g
  let status := if dateLt rd today then "Official" else "Promotional"
  let ctry ← country g
  let art ← albumartist g
  let va ← is_va g
  let med ← mediums g
  pure { data_source := "bandcamp", media := m, data_url := did,
         artist_id := aid, year := rd.year, month := rd.month, day := rd.day,
         label := lbl, catalognum := cat, albumtype := atype, album := alb,
         albumstatus := status, country := ctry, artist := art,
         album_id := did, va := va, mediums := med, tracks := infos }

/-- The format-map construction inside `album`'s `try` block: walk
`albumRelease`, skip entries without `musicReleaseFormat` (the inner
`except KeyError: continue`), map the tag through `MEDIA_MAP` (whose miss
is a `KeyError` escaping to the outer handler), and assign into the map. -/
def buildMedias (rel : PyVal) : Except PyErr (List (String × PyVal)) :=
  match rel with
  | .list fs =>
    fs.foldlM (fun acc f =>
      match pySub f "musicReleaseFormat" with
      | .error .keyError => pure acc
      | .error e => .error e
      | .ok v =>
        match v with
        | .str s =>
          match mediaMapLookup MEDIA_MAP s with
          | some human => pure (aset acc human f)
          | none => .error .keyError
        | .list _ => .error .typeError
        | .dict _ => .error .typeError
        | _ => .error .keyError) []
  | .str "" => .ok []
  | .dict [] => .ok []
  | _ => .error .typeError

/-- The `for preference in ...: if preference in medias: ... break / else:`
walk of `album`: take the first comma-separated preference present among
the recognised formats; when the loop completes without a break, fall to
`medias[DEFAULT_MEDIA]`, whose absence is an (uncaught) `KeyError`. -/
def selectLoop (medias : List (String × PyVal)) : List (List Char) → Except PyErr PyVal
  | [] =>
    match alookup medias DEFAULT_MEDIA with
    | some d => .ok d
    | none => .error .keyError
  | p :: ps =>
    match alookup medias (ofChars p) with
    | some v => .ok v
    | none => selectLoop medias ps

/-- The preference selection of `album` over `self.preferred_media.split(",")`. -/
def selectMedia (medias : List (String × PyVal)) (pm : String) :
    Except PyErr PyVal :=
  selectLoop medias (splitOnC ',' pm.data)

/-- `album(include_all)`: build the format map (`KeyError`/`AttributeError`
there mean `return None`), record the advertised format names, select the
active format, and assemble the release. -/
def album (g : Metaguru) (include_all : Bool) (today : PyDate) :
    Except PyErr (Option AlbumInfo) := do
  let tryRes : Except PyErr (List (String × PyVal)) := do
    let rel ← pySub g.meta "albumRelease"
    buildMedias rel
  match tryRes with
  | .error .keyError => pure none
  | .error .attributeError => pure none
  | .error e => .error e
  | .ok medias => do
    let g := { g with all_medias := medias.map Prod.fst }
    let chosen ← selectMedia medias g.preferred_media
    let g := { g with media_ := chosen }
    let info ← albuminfo g include_all today
    pure (some info)

end Metaguru

/-! ## Specification-side definitions and concrete pages

`specTrackNameFallback` renders the specification's description of the
`parse_track_name` fallback (split on the last " - "), to be compared with
the source's actual fallback.  The `PyVal`/`Metaguru` literals below are the
concrete pages the theorems evaluate. -/

/-- The fallback behaviour the specification ascribes to `parseTrackName`:
"on no match, fall back to splitting on the last \" - \" occurrence
(artist = left, title = right)", the whole name standing as title when the
separator does not occur. -/
def specTrackNameFallback (name : String) : Helpers.TrackName :=
  if containsL " - ".data name.data then
    let title := rpartAfter " - ".data name.data
    let artist := name.data.take (name.data.length - title.length - 3)
    { track_alt := none, artist := some (ofChars artist), title := some (ofChars title) }
  else { track_alt := none, artist := none, title := some name }

/-- A track survives `albuminfo`'s non-digital filter exactly when its
`digital_only` flag is falsy. -/
def keptTrack (t : PyVal) : Bool :=
  match pySub t "digital_only" with
  | .ok d => !pyTruthy d
  | .error _ => true

deriving instance Inhabited for PyVal
deriving instance Inhabited for TrackInfo
deriving instance Inhabited for AlbumInfo

/-- A page that is both an LP and a various-artists release by title. -/
def pageLpVa : Metaguru :=
  { html := "", preferred_media := DEFAULT_MEDIA,
    meta := .dict [("name", .str "Various Artists LP")] }

/-- A page whose embedded metadata block was absent (`meta` fell back to `{}`). -/
def pageNoMeta : Metaguru :=
  { html := "", preferred_media := DEFAULT_MEDIA, meta := .dict [] }

/-- A page advertising an empty `albumRelease` list. -/
def pageNoFormats : Metaguru :=
  { html := "", preferred_media := DEFAULT_MEDIA,
    meta := .dict [("albumRelease", .list [])] }

/-- The vinyl format descriptor of the two-disc test page. -/
def vinylFmt : PyVal :=
  .dict [("musicReleaseFormat", .str "VinylFormat"),
         ("name", .str "2 x Vinyl LP - XYZ")]

/-- The digital format descriptor of the test pages. -/
def digitalFmt : PyVal := .dict [("musicReleaseFormat", .str "DigitalFormat")]

/-- The embedded metadata block of the multi-format test page: two tracks,
the second digital-only, a vinyl and a digital format. -/
def pageFullMeta : PyVal := .dict [
  ("name", .str "AlbumX"),
  ("@id", .str "https://lbl.bandcamp.com/album/albumx"),
  ("byArtist", .dict [("name", .str "Arty"), ("@id", .str "https://arty")]),
  ("publisher", .dict [("name", .str "Lbl"), ("@id", .str "https://lbl")]),
  ("track", .dict [("itemListElement", .list [
      .dict [("item", .dict [("name", .str "Arty - Song One"), ("@id", .str "t1"),
                             ("additionalProperty",
                              .list [.dict [("name", .str "duration_secs"),
                                            ("value", .int 190)]])]),
             ("position", .int 1)],
      .dict [("item", .dict [("name", .str "Song Two [Digital Bonus]"),
                             ("@id", .str "t2")]),
             ("position", .int 2)]])]),
  ("albumRelease", .list [vinylFmt, digitalFmt])]

/-- The multi-format test page, preferring vinyl. -/
def pageFull : Metaguru :=
  { html := "album released 04 December 2020 yes",
    preferred_media := "Vinyl", meta := pageFullMeta }

/-- The state `album` hands to `albuminfo` on `pageFull`: the vinyl
descriptor selected, both advertised format names recorded. -/
def pageFullVinyl : Metaguru :=
  { pageFull with media_ := vinylFmt, all_medias := ["Vinyl", "Digital Media"] }

/-- The format map `album` builds on `pageFull`. -/
def pageFullMedias : List (String × PyVal) :=
  [("Vinyl", vinylFmt), ("Digital Media", digitalFmt)]

def wDate : PyDate := ⟨2021, 1, 1⟩

/-- The processed tracklist of `pageFullVinyl`. -/
def pageFullTracks : List PyVal :=
  (Metaguru.tracks pageFullVinyl).toOption.getD []

/-- The release record `albuminfo` assembles on `pageFullVinyl`. -/
def pageFullInfo : AlbumInfo :=
  (Metaguru.albuminfo pageFullVinyl false wDate).toOption.getD default

/-- The release record `album` assembles on `pageFull` with all tracks
included. -/
def pageFullAlbum : AlbumInfo :=
  match Metaguru.album pageFull true wDate with
  | .ok (some i) => i
  | _ => default

/-- `pageFull` with its date phrase removed. -/
def pageNoDate : Metaguru := { pageFull with html := "released on Some Records" }

/-- A single-track page. -/
def pageSingle : Metaguru :=
  { html := "", preferred_media := DEFAULT_MEDIA,
    meta := .dict [("name", .str "Arty - One"), ("@id", .str "https://a/t"),
                   ("byArtist", .dict [("name", .str "Arty"),
                                       ("@id", .str "https://arty")])] }

/-- The track record `singleton` assembles on `pageSingle`. -/
def pageSingleTrack : TrackInfo :=
  (Metaguru.singleton pageSingle).toOption.getD default

/-- A page whose publisher is founded in "Berlin, Germany". -/
def pageBerlin : Metaguru :=
  { html := "", preferred_media := DEFAULT_MEDIA,
    meta := .dict [("publisher", .dict [("foundingLocation",
             .dict [("name", .str "Berlin, Germany")])])] }

/-- A page whose publisher location is "UK". -/
def pageUK : Metaguru :=
  { html := "", preferred_media := DEFAULT_MEDIA,
    meta := .dict [("publisher", .dict [("foundingLocation",
             .dict [("name", .str "UK")])])] }

/-- A page whose publisher location is the unknown "No Ones, Land". -/
def pageNoOnes : Metaguru :=
  { html := "", preferred_media := DEFAULT_MEDIA,
    meta := .dict [("publisher", .dict [("foundingLocation",
             .dict [("name", .str "No Ones, Land")])])] }

/-! ## Shared structural lemmas -/

theorem exbind_ok {α β : Type} {e : Except PyErr α} {k : α → Except PyErr β} {r : β}
    (h : (e >>= k) = .ok r) : ∃ x, e = .ok x ∧ k x = .ok r := by
  cases e with
  | error err => simp [bind, Except.bind] at h
  | ok x => exact ⟨x, rfl, by simpa [bind, Except.bind] using h⟩

theorem mapExcept_length {α β : Type} (f : α → Except PyErr β) :
    ∀ (l : List α) (l' : List β), mapExcept f l = .ok l' → l'.length = l.length := by
  intro l
  induction l with
  | nil => intro l' h; simp [mapExcept] at h; simp [← h]
  | cons a as ih =>
    intro l' h
    simp only [mapExcept] at h
    obtain ⟨b, hb, h⟩ := exbind_ok h
    obtain ⟨bs, hbs, h⟩ := exbind_ok h
    simp only [pure, Except.pure, Except.ok.injEq] at h
    subst h
    simp [ih bs hbs]

theorem mapExcept_mem {α β : Type} (f : α → Except PyErr β) :
    ∀ (l : List α) (l' : List β), mapExcept f l = .ok l' →
      ∀ b ∈ l', ∃ a ∈ l, f a = .ok b := by
  intro l
  induction l with
  | nil =>
    intro l' h
    simp [mapExcept] at h
    subst h
    simp
  | cons a as ih =>
    intro l' h
    simp only [mapExcept] at h
    obtain ⟨b, hb, h⟩ := exbind_ok h
    obtain ⟨bs, hbs, h⟩ := exbind_ok h
    simp only [pure, Except.pure, Except.ok.injEq] at h
    subst h
    intro x hx
    rcases hx with _ | hx
    · exact ⟨a, by simp, hb⟩
    · rename_i hx
      obtain ⟨a', ha', hfa'⟩ := ih bs hbs x hx
      exact ⟨a', by simp [ha'], hfa'⟩

theorem trackinfo_fields (g : Metaguru) (t : PyVal) (mt : Int)
    (a b : Option PyVal) (ti : TrackInfo)
    (h : Metaguru.trackinfo g t mt a b = .ok ti) :
    ti.medium = 1 ∧ ti.medium_index = ti.index ∧ ti.medium_total = mt := by
  unfold Metaguru.trackinfo at h
  obtain ⟨idx, hidx, h⟩ := exbind_ok h
  obtain ⟨m, hm, h⟩ := exbind_ok h
  obtain ⟨did, hdid, h⟩ := exbind_ok h
  obtain ⟨aid, haid, h⟩ := exbind_ok h
  obtain ⟨title, htitle, h⟩ := exbind_ok h
  obtain ⟨tid, htid, h⟩ := exbind_ok h
  obtain ⟨artist, hartist, h⟩ := exbind_ok h
  obtain ⟨len, hlen, h⟩ := exbind_ok h
  obtain ⟨ta, hta, h⟩ := exbind_ok h
  obtain ⟨dt, hdt, h⟩ := exbind_ok h
  simp only [pure, Except.pure, Except.ok.injEq] at h
  subst h
  simp

theorem trackinfo_index_kw (g : Metaguru) (t : PyVal) (mt : Int)
    (a : Option PyVal) (v : PyVal) (ti : TrackInfo)
    (hv : pyTruthy v = true)
    (h : Metaguru.trackinfo g t mt a (some v) = .ok ti) :
    ti.index = v := by
  unfold Metaguru.trackinfo at h
  obtain ⟨idx, hidx, h⟩ := exbind_ok h
  obtain ⟨m, hm, h⟩ := exbind_ok h
  obtain ⟨did, hdid, h⟩ := exbind_ok h
  obtain ⟨aid, haid, h⟩ := exbind_ok h
  obtain ⟨title, htitle, h⟩ := exbind_ok h
  obtain ⟨tid, htid, h⟩ := exbind_ok h
  obtain ⟨artist, hartist, h⟩ := exbind_ok h
  obtain ⟨len, hlen, h⟩ := exbind_ok h
  obtain ⟨ta, hta, h⟩ := exbind_ok h
  obtain ⟨dt, hdt, h⟩ := exbind_ok h
  simp only [pure, Except.pure, Except.ok.injEq] at h
  subst h
  simp only [Metaguru.kwOrGet, Option.getD, hv, if_pos, Except.ok.injEq] at hidx
  simp [← hidx]

theorem albuminfo_track_fields (g : Metaguru) (ia : Bool) (td : PyDate)
    (info : AlbumInfo) (h : Metaguru.albuminfo g ia td = .ok info) :
    ∀ t ∈ info.tracks, t.medium = 1 ∧ t.medium_index = t.index ∧
      t.medium_total = (info.tracks.length : Int) := by
  unfold Metaguru.albuminfo at h
  obtain ⟨m, hm, h⟩ := exbind_ok h
  obtain ⟨ts, hts, h⟩ := exbind_ok h
  obtain ⟨fl, hfl, h⟩ := exbind_ok h
  obtain ⟨infos, hinfos, h⟩ := exbind_ok h
  obtain ⟨did, hdid, h⟩ := exbind_ok h
  obtain ⟨aid, haid, h⟩ := exbind_ok h
  obtain ⟨rd, hrd, h⟩ := exbind_ok h
  obtain ⟨lbl, hlbl, h⟩ := exbind_ok h
  obtain ⟨cat, hcat, h⟩ := exbind_ok h
  obtain ⟨atype, hatype, h⟩ := exbind_ok h
  obtain ⟨alb, halb, h⟩ := exbind_ok h
  obtain ⟨ctry, hctry, h⟩ := exbind_ok h
  obtain ⟨art, hart, h⟩ := exbind_ok h
  obtain ⟨va, hva, h⟩ := exbind_ok h
  obtain ⟨med, hmed, h⟩ := exbind_ok h
  simp only [pure, Except.pure, Except.ok.injEq] at h
  subst h
  simp only
  intro t ht
  have hlen := mapExcept_length _ fl infos hinfos
  obtain ⟨orig, _, horig⟩ := mapExcept_mem _ fl infos hinfos t ht
  have hf := trackinfo_fields g orig (fl.length : Int) none none t horig
  exact ⟨hf.1, hf.2.1, by rw [hf.2.2, hlen]⟩

theorem albuminfo_tracks_shape (g : Metaguru) (ia : Bool) (td : PyDate)
    (info : AlbumInfo) (m : String) (ts : List PyVal)
    (hm : Metaguru.media g = .ok m) (hts : Metaguru.tracks g = .ok ts)
    (h : Metaguru.albuminfo g ia td = .ok info) :
    ∃ fl, Metaguru.keepTracks m ia ts = .ok fl ∧
      info.tracks.length = fl.length ∧
      mapExcept (fun t => Metaguru.trackinfo g t (fl.length : Int) none none) fl
        = .ok info.tracks := by
  unfold Metaguru.albuminfo at h
  rw [hm] at h
  obtain ⟨m', hm', h⟩ := exbind_ok h
  simp only [Except.ok.injEq] at hm'
  subst hm'
  rw [hts] at h
  obtain ⟨ts', hts', h⟩ := exbind_ok h
  simp only [Except.ok.injEq] at hts'
  subst hts'
  obtain ⟨fl, hfl, h⟩ := exbind_ok h
  obtain ⟨infos, hinfos, h⟩ := exbind_ok h
  obtain ⟨did, hdid, h⟩ := exbind_ok h
  obtain ⟨aid, haid, h⟩ := exbind_ok h
  obtain ⟨rd, hrd, h⟩ := exbind_ok h
  obtain ⟨lbl, hlbl, h⟩ := exbind_ok h
  obtain ⟨cat, hcat, h⟩ := exbind_ok h
  obtain ⟨atype, hatype, h⟩ := exbind_ok h
  obtain ⟨alb, halb, h⟩ := exbind_ok h
  obtain ⟨ctry, hctry, h⟩ := exbind_ok h
  obtain ⟨art, hart, h⟩ := exbind_ok h
  obtain ⟨va, hva, h⟩ := exbind_ok h
  obtain ⟨med, hmed, h⟩ := exbind_ok h
  simp only [pure, Except.pure, Except.ok.injEq] at h
  subst h
  exact ⟨fl, hfl, mapExcept_length _ fl infos hinfos, hinfos⟩

theorem album_ok_extract (g : Metaguru) (ia : Bool) (td : PyDate) (info : AlbumInfo)
    (h : Metaguru.album g ia td = .ok (some info)) :
    ∃ medias chosen,
      Metaguru.selectMedia medias g.preferred_media = .ok chosen ∧
      Metaguru.albuminfo
        { g with all_medias := medias.map Prod.fst, media_ := chosen } ia td
        = .ok info := by
  simp only [Metaguru.album, bind, Except.bind, pure, Except.pure] at h
  repeat' split at h
  all_goals simp_all
  · rename_i tr medias hmedias x1 chosen hsel x2 v2 hinfo
    exact ⟨medias, chosen, hsel, hinfo⟩

theorem singleton_fields (g : Metaguru) (tr : TrackInfo)
    (h : Metaguru.singleton g = .ok tr) :
    tr.medium = 1 ∧ tr.medium_index = tr.index ∧ tr.index = .int 1 := by
  unfold Metaguru.singleton at h
  obtain ⟨an, han, h⟩ := exbind_ok h
  obtain ⟨track, htrack, h⟩ := exbind_ok h
  obtain ⟨aid, haid, h⟩ := exbind_ok h
  have hf := trackinfo_fields _ track 1 _ _ tr h
  have hidx := trackinfo_index_kw _ track 1 _ (.int 1) tr (by simp [pyTruthy]) h
  exact ⟨hf.1, hf.2.1, hidx⟩

theorem selectLoop_spec (medias : List (String × PyVal)) (dig : PyVal)
    (hdig : alookup medias DEFAULT_MEDIA = some dig) :
    ∀ ps : List (List Char),
      Metaguru.selectLoop medias ps =
        .ok (match ps.find? (fun p => (alookup medias (ofChars p)).isSome) with
             | some p => (alookup medias (ofChars p)).getD .null
             | none => dig) := by
  intro ps
  induction ps with
  | nil => simp [Metaguru.selectLoop, hdig]
  | cons p ps ih =>
    simp only [Metaguru.selectLoop, List.find?]
    cases hp : alookup medias (ofChars p) with
    | some v => simp [hp]
    | none => simp [hp, ih]

theorem filterNotDigital_spec :
    ∀ (ts fl : List PyVal), Metaguru.filterNotDigital ts = .ok fl →
      fl = ts.filter keptTrack := by
  intro ts
  induction ts with
  | nil =>
    intro fl h
    simp [Metaguru.filterNotDigital] at h
    subst h
    simp
  | cons t ts ih =>
    intro fl h
    simp only [Metaguru.filterNotDigital] at h
    obtain ⟨d, hd, h⟩ := exbind_ok h
    obtain ⟨rest, hrest, h⟩ := exbind_ok h
    simp only [pure, Except.pure, Except.ok.injEq] at h
    subst h
    rw [ih rest hrest]
    simp only [List.filter, keptTrack, hd]
    cases hpt : pyTruthy d <;> simp [hpt]

theorem country_xw_of_body_err (g : Metaguru) (e : PyErr)
    (hbody : Metaguru.countryBody g = .error e)
    (he : e = .keyError ∨ e = .valueError ∨ e = .lookupError) :
    Metaguru.country g = .ok "XW" := by
  unfold Metaguru.country
  rw [hbody]
  rcases he with h | h | h <;> subst h <;> rfl

theorem dropWhile_dropWhile (p : Char → Bool) (l : List Char) :
    (l.dropWhile p).dropWhile p = l.dropWhile p := by
  induction l with
  | nil => simp
  | cons c cs ih =>
    by_cases hc : p c
    · simp [List.dropWhile, hc, ih]
    · simp [List.dropWhile, hc]

theorem dropWhile_fix_strip (p : Char → Bool) (l : List Char)
    (hl : l.dropWhile p = l) :
    ((l.reverse.dropWhile p).reverse).dropWhile p = (l.reverse.dropWhile p).reverse := by
  cases l with
  | nil => simp
  | cons c cs =>
    have hc : p c = false := by
      by_cases h : p c
      · simp only [List.dropWhile, h] at hl
        have hle := (List.dropWhile_sublist (l := cs) p).length_le
        rw [hl] at hle
        simp at hle
      · simpa using h
    have hrev : (c :: cs).reverse = cs.reverse ++ [c] := by simp
    rw [hrev, List.dropWhile_append]
    by_cases he : (cs.reverse.dropWhile p).isEmpty
    · simp [he, List.dropWhile, hc]
    · simp only [he, if_neg]
      simp only [Bool.false_eq_true, if_false]
      rw [List.reverse_append]
      simp [List.dropWhile, hc]

theorem stripL_idem (l : List Char) : stripL (stripL l) = stripL l := by
  unfold stripL
  have h1 : (l.dropWhile isSpaceC).dropWhile isSpaceC = l.dropWhile isSpaceC :=
    dropWhile_dropWhile _ _
  have h2 := dropWhile_fix_strip isSpaceC (l.dropWhile isSpaceC) h1
  rw [h2, List.reverse_reverse, dropWhile_dropWhile]

/-! ## The claims -/

/-- C1: `albumtype` is "single" for standalone tracks; otherwise "album"
when `is_lp` holds; otherwise "compilation" when `is_va` holds; otherwise
"ep" — the LP check precedes the VA check precedes the EP default, so an LP
various-artists release types as "album", not "compilation". -/
theorem claim1_albumtype_precedence (g : Metaguru) (lp va : Bool)
    (hlp : Metaguru.is_lp g = .ok lp) (hva : Metaguru.is_va g = .ok va) :
    Metaguru.albumtype g = .ok (
      if g.singleton_ then "single"
      else if lp then "album"
      else if va then "compilation"
      else "ep") := by
  simp only [Metaguru.albumtype, bind, Except.bind, hlp, hva, pure, Except.pure]
  by_cases hs : g.singleton_ <;> cases lp <;> cases va <;> simp [hs]

/-- C1 witness: a page whose title makes it both an LP and a
various-artists release types as "album". -/
theorem claim1_witness :
    Metaguru.is_lp pageLpVa = .ok true ∧ Metaguru.is_va pageLpVa = .ok true ∧
    pageLpVa.singleton_ = false ∧
    Metaguru.albumtype pageLpVa = .ok "album" :=
  ⟨rfl, rfl, rfl, claim1_albumtype_precedence pageLpVa true true rfl rfl⟩

/-- C2 (amended): `album` returns an absent result — never a partial
record — whenever the `albumRelease` lookup raises `KeyError` (in
particular when the embedded metadata block was absent and `meta` fell back
to `{}`); but on a page whose `albumRelease` list yields no recognised
format at all, with no preference matching, the `medias[DEFAULT_MEDIA]`
fallback raises an uncaught `KeyError` instead of returning absent. -/
theorem claim2_album_absent_amended (g : Metaguru) (ia : Bool) (td : PyDate)
    (h : pySub g.meta "albumRelease" = .error .keyError) :
    Metaguru.album g ia td = .ok none ∧
    Metaguru.album { g with meta := .dict [("albumRelease", .list [])] } ia td
      = .error .keyError := by
  constructor
  · simp only [Metaguru.album, bind, Except.bind, h, pure, Except.pure]
  · simp only [Metaguru.album, bind, Except.bind, pure, Except.pure]
    have hsel : Metaguru.selectMedia []
        ({ g with meta := .dict [("albumRelease", .list [])] } : Metaguru).preferred_media
        = .error .keyError := by
      unfold Metaguru.selectMedia
      generalize splitOnC ',' _ = ps
      induction ps with
      | nil => simp [Metaguru.selectLoop, alookup]
      | cons p ps ih => simp [Metaguru.selectLoop, alookup, ih]
    simp only [Metaguru.selectMedia] at hsel
    simp [pySub, alookup, Metaguru.buildMedias, Metaguru.selectMedia, pure,
      Except.pure, hsel]

/-- C2 counterexample: a page that advertises no release formats at all
(an empty `albumRelease` list) makes `album` raise an uncaught `KeyError`
rather than return an absent result. -/
theorem claim2_counterexample :
    Metaguru.album pageNoFormats true wDate = .error .keyError := rfl

/-- C2 witness: a page without a metadata block returns absent. -/
theorem claim2_witness :
    Metaguru.album pageNoMeta true wDate = .ok none ∧
    Metaguru.album { pageNoMeta with meta := .dict [("albumRelease", .list [])] }
      true wDate = .error .keyError :=
  claim2_album_absent_amended pageNoMeta true wDate rfl

/-- C5 (amended): `parse_track_name` applies the decomposition pattern and
returns its `groupdict`; when the pattern does not match, it falls back to
returning the whole name as the title with artist and track-alt unset (not
to a split on the last " - "); when no artist group is captured, the artist
field is left unset. -/
theorem claim5_track_name_fallback_amended (name : String) :
    (reSearch trackNameRE name.data = none →
      Helpers.parse_track_name name =
        { track_alt := none, artist := none, title := some name }) ∧
    (∀ st en caps, reSearch trackNameRE name.data = some (st, en, caps) →
      Helpers.parse_track_name name =
        { track_alt := (capText name.data caps 2).map ofChars,
          artist := (capText name.data caps 5).map ofChars,
          title := (capText name.data caps 7).map ofChars }) := by
  constructor
  · intro h
    simp [Helpers.parse_track_name, h]
  · intro st en caps h
    simp [Helpers.parse_track_name, h]

/-- C5 counterexample: on "&$% - @#!" the pattern does not match (the title
group needs a word boundary), and the source's fallback keeps the whole
name as title with artist unset — not the last-" - " split (artist "&$%",
title "@#!") the claim describes. -/
theorem claim5_counterexample :
    reSearch trackNameRE "&$% - @#!".data = none ∧
    Helpers.parse_track_name "&$% - @#!" =
      { track_alt := none, artist := none, title := some "&$% - @#!" } ∧
    specTrackNameFallback "&$% - @#!" =
      { track_alt := none, artist := some "&$%", title := some "@#!" } ∧
    Helpers.parse_track_name "&$% - @#!" ≠ specTrackNameFallback "&$% - @#!" := by
  refine ⟨rfl, rfl, rfl, ?_⟩
  intro h
  rw [show Helpers.parse_track_name "&$% - @#!" =
        { track_alt := none, artist := none, title := some "&$% - @#!" } from rfl,
      show specTrackNameFallback "&$% - @#!" =
        { track_alt := none, artist := some "&$%", title := some "@#!" } from rfl] at h
  exact absurd h (by decide)

/-- C5 witness: "A - " has no match, and the fallback keeps it whole. -/
theorem claim5_witness :
    reSearch trackNameRE "A - ".data = none ∧
    Helpers.parse_track_name "A - " =
      { track_alt := none, artist := none, title := some "A - " } :=
  ⟨rfl, (claim5_track_name_fallback_amended "A - ").1 rfl⟩

/-- C7: `check_digital_only` reports `digital_only = true` exactly when
stripping the digital/bonus-marker pattern changes the name, and then also
returns the stripped string as the cleaned name; "Digital Life", which the
marker pattern does not touch, reports false. -/
theorem claim7_check_digital_only :
    (∀ name, ((Helpers.check_digital_only name).digital_only = true ↔
       ofChars (reSubAll digitalRE name.data) ≠ name)) ∧
    (∀ name, (Helpers.check_digital_only name).digital_only = true →
       (Helpers.check_digital_only name).name =
         some (ofChars (reSubAll digitalRE name.data))) ∧
    Helpers.check_digital_only "Artist - Track [Digital Bonus]" =
      { digital_only := true, name := some "Artist - Track" } ∧
    Helpers.check_digital_only "Digital Life" =
      { digital_only := false, name := none } := by
  refine ⟨?_, ?_, rfl, rfl⟩
  · intro name
    by_cases h : ofChars (reSubAll digitalRE name.data) ≠ name <;>
      simp [Helpers.check_digital_only, h]
  · intro name
    by_cases h : ofChars (reSubAll digitalRE name.data) ≠ name <;>
      simp [Helpers.check_digital_only, h]

/-- C7 witness: "DIGI 11. Track" is marked digital-only and the stripped
name comes back as the cleaned name. -/
theorem claim7_witness :
    (Helpers.check_digital_only "DIGI 11. Track").digital_only = true ∧
    (Helpers.check_digital_only "DIGI 11. Track").name =
      some (ofChars (reSubAll digitalRE "DIGI 11. Track".data)) :=
  ⟨rfl, claim7_check_digital_only.2.1 "DIGI 11. Track" rfl⟩

/-- C8 (amended): `clean_up_album_name` is not idempotent in general — a
first pass can splice a fresh removable marker together (see the
counterexample) — but it is idempotent at any input whose once-cleaned
name is left unchanged by a further pattern-removal pass. -/
theorem claim8_clean_idempotent_amended (name : String) (args : List String)
    (h1 : stripL (reSubAll (Helpers.cleanAlbumRE args) name.data) ≠ [])
    (h2 : reSubAll (Helpers.cleanAlbumRE args)
            (Helpers.clean_up_album_name name args).data
          = (Helpers.clean_up_album_name name args).data) :
    Helpers.clean_up_album_name (Helpers.clean_up_album_name name args) args
      = Helpers.clean_up_album_name name args := by
  have hy : Helpers.clean_up_album_name name args
      = ofChars (stripL (reSubAll (Helpers.cleanAlbumRE args) name.data)) := by
    unfold Helpers.clean_up_album_name
    rw [if_neg h1]
  have hdata : (ofChars (stripL (reSubAll (Helpers.cleanAlbumRE args) name.data))).data
      = stripL (reSubAll (Helpers.cleanAlbumRE args) name.data) := rfl
  rw [hy] at h2 ⊢
  rw [hdata] at h2
  unfold Helpers.clean_up_album_name
  rw [hdata, h2, stripL_idem, if_neg h1]

/-- C8 counterexample: with exclusion "label", cleaning "Title E[label]P"
removes the bracketed exclusion and splices "Title EP" together; a second
pass then strips the freshly created " EP" marker, so the function is not
idempotent. -/
theorem claim8_counterexample :
    Helpers.clean_up_album_name "Title E[label]P" ["label"] = "Title EP" ∧
    Helpers.clean_up_album_name "Title EP" ["label"] = "Title" ∧
    Helpers.clean_up_album_name
        (Helpers.clean_up_album_name "Title E[label]P" ["label"]) ["label"]
      ≠ Helpers.clean_up_album_name "Title E[label]P" ["label"] := by
  refine ⟨rfl, rfl, ?_⟩
  intro h
  rw [show Helpers.clean_up_album_name "Title E[label]P" ["label"] = "Title EP"
        from rfl] at h
  rw [show Helpers.clean_up_album_name "Title EP" ["label"] = "Title" from rfl] at h
  exact absurd h (by decide)

/-- C8 witness: a name whose cleaned form the pattern no longer touches is
a fixpoint of a second pass. -/
theorem claim8_witness :
    Helpers.clean_up_album_name
        (Helpers.clean_up_album_name "Great Album (limited edition)" []) []
      = Helpers.clean_up_album_name "Great Album (limited edition)" [] :=
  claim8_clean_idempotent_amended "Great Album (limited edition)" []
    (by decide) rfl

/-- C9: country resolution consults the override table before the generic
country lookup (so "UK" maps to "GB"), a city-plus-country location such as
"Berlin, Germany" resolves to the country's alpha-2 code "DE", and any
location whose lookups all fail falls back to "XW". -/
theorem claim9_country :
    (∀ name c, alookupS COUNTRY_OVERRIDES name = some c →
       Metaguru.resolveCountryName name = .ok c) ∧
    (∀ name, alookupS COUNTRY_OVERRIDES name = none →
       pycountryAlpha2 name = none → pycountrySubdivisionCountry name = none →
       Metaguru.resolveCountryName name = .error .lookupError) ∧
    (∀ g e, Metaguru.countryBody g = .error e →
       (e = .keyError ∨ e = .valueError ∨ e = .lookupError) →
       Metaguru.country g = .ok "XW") ∧
    Metaguru.country pageBerlin = .ok "DE" ∧
    Metaguru.country pageUK = .ok "GB" ∧
    Metaguru.country pageNoOnes = .ok "XW" := by
  refine ⟨?_, ?_, country_xw_of_body_err, rfl, rfl, rfl⟩
  · intro name c h
    unfold Metaguru.resolveCountryName
    rw [h]
  · intro name h1 h2 h3
    unfold Metaguru.resolveCountryName
    rw [h1, h2, h3]

/-- C9 witness: the override hit, the triple miss, and the fallback. -/
theorem claim9_witness :
    Metaguru.resolveCountryName "UK" = .ok "GB" ∧
    Metaguru.resolveCountryName "Land" = .error .lookupError ∧
    Metaguru.country pageNoMeta = .ok "XW" :=
  ⟨claim9_country.1 "UK" "GB" rfl,
   claim9_country.2.1 "Land" rfl rfl rfl,
   claim9_country.2.2.1 pageNoMeta .keyError rfl (Or.inl rfl)⟩

/-- C3: the chosen format is the first preference present among the page's
recognised formats, falling back to the Digital descriptor when no
preference matches (Digital assumed present); every track is kept when the
chosen format is Digital or all tracks were requested, otherwise the
digital-only tracks are dropped; and every assembled track's
`medium_total` is the filtered track count. -/
theorem claim3_format_selection_filtering :
    (∀ medias pm dig, alookup medias DEFAULT_MEDIA = some dig →
      Metaguru.selectMedia medias pm =
        .ok (match (splitOnC ',' pm.data).find?
               (fun p => (alookup medias (ofChars p)).isSome) with
             | some p => (alookup medias (ofChars p)).getD .null
             | none => dig)) ∧
    (∀ g ia td info m ts,
      Metaguru.media g = .ok m → Metaguru.tracks g = .ok ts →
      Metaguru.albuminfo g ia td = .ok info →
      ∃ fl, Metaguru.keepTracks m ia ts = .ok fl ∧
        ((m = DEFAULT_MEDIA ∨ ia = true) → fl = ts) ∧
        (¬ (m = DEFAULT_MEDIA ∨ ia = true) → fl = ts.filter keptTrack) ∧
        info.tracks.length = fl.length ∧
        (∀ t ∈ info.tracks, t.medium_total = (fl.length : Int))) := by
  constructor
  · intro medias pm dig hdig
    exact selectLoop_spec medias dig hdig _
  · intro g ia td info m ts hm hts hinfo
    obtain ⟨fl, hfl, hlen, hmap⟩ :=
      albuminfo_tracks_shape g ia td info m ts hm hts hinfo
    refine ⟨fl, hfl, ?_, ?_, hlen, ?_⟩
    · intro hc
      unfold Metaguru.keepTracks at hfl
      rw [if_pos hc] at hfl
      exact (Except.ok.injEq _ _).mp hfl.symm
    · intro hc
      unfold Metaguru.keepTracks at hfl
      rw [if_neg hc] at hfl
      exact filterNotDigital_spec ts fl hfl
    · intro t ht
      obtain ⟨orig, _, horig⟩ := mapExcept_mem _ fl _ hmap t ht
      exact (trackinfo_fields g orig _ none none t horig).2.2

/-- C3 witness: on the two-format test page the "Vinyl" preference selects
the vinyl descriptor; with vinyl active and all tracks not requested, the
digital-only second track is dropped and the surviving track carries
`medium_total = 1`. -/
theorem claim3_witness :
    Metaguru.selectMedia pageFullMedias "Vinyl" = .ok vinylFmt ∧
    pageFullTracks.length = 2 ∧
    pageFullInfo.tracks.length = 1 ∧
    (∃ fl, Metaguru.keepTracks "Vinyl" false pageFullTracks = .ok fl ∧
      ((("Vinyl" : String) = DEFAULT_MEDIA ∨ false = true) → fl = pageFullTracks) ∧
      (¬ (("Vinyl" : String) = DEFAULT_MEDIA ∨ false = true) →
        fl = pageFullTracks.filter keptTrack) ∧
      pageFullInfo.tracks.length = fl.length ∧
      (∀ t ∈ pageFullInfo.tracks, t.medium_total = (fl.length : Int))) :=
  ⟨(claim3_format_selection_filtering.1 pageFullMedias "Vinyl" digitalFmt rfl).trans rfl,
   rfl, rfl,
   claim3_format_selection_filtering.2 pageFullVinyl false wDate pageFullInfo
     "Vinyl" pageFullTracks rfl rfl rfl⟩

/-- C4 (amended): individual pattern misses resolve at the normaliser level
to their documented defaults — empty date substring, empty catalog number,
the whole name as title, "XW" for a failed country lookup — and are not
raised there; but the `release_date` accessor feeds the empty default into
strict date parsing, so assembling a release from a page without a
"released DD Month YYYY" phrase raises a `ValueError`. -/
theorem claim4_pattern_miss_defaults_amended :
    (∀ s, reSearch releaseDateRE s.data = none →
       Helpers.parse_release_date s = "") ∧
    (∀ g, Helpers.parse_release_date g.html = "" →
       Metaguru.release_date g = .error .valueError) ∧
    (∀ album disctitle description : String,
       Helpers.catalognumAttempt descCatalognumRE description [1, 2] = none →
       Helpers.catalognumAttempt quickCatalognumRE album [1] = none →
       Helpers.catalognumAttempt catalognumRE disctitle [1, 2] = none →
       Helpers.catalognumAttempt catalognumRE album [1, 2] = none →
       Helpers.parse_catalognum album disctitle description = "") ∧
    (∀ n, reSearch trackNameRE n.data = none →
       Helpers.parse_track_name n =
         { track_alt := none, artist := none, title := some n }) ∧
    (∀ g, Metaguru.countryBody g = .error .lookupError →
       Metaguru.country g = .ok "XW") := by
  refine ⟨?_, ?_, ?_, ?_, ?_⟩
  · intro s h
    simp [Helpers.parse_release_date, h]
  · intro g h
    unfold Metaguru.release_date
    rw [h]
    rfl
  · intro album disctitle description h1 h2 h3 h4
    unfold Helpers.parse_catalognum
    rw [h1, h2, h3, h4]
  · intro n h
    simp [Helpers.parse_track_name, h]
  · intro g h
    exact country_xw_of_body_err g .lookupError h (Or.inr (Or.inr rfl))

/-- C4 counterexample: the otherwise fully valid test page whose text
contains no "released DD Month YYYY" phrase makes `album` raise a
`ValueError` (out of `strptime`), even though the date pattern miss itself
was resolved to the empty-string default. -/
theorem claim4_counterexample :
    Helpers.parse_release_date pageNoDate.html = "" ∧
    Metaguru.album pageNoDate true wDate = .error .valueError := ⟨rfl, rfl⟩

/-- C4 witness: the four documented defaults and the raising accessor at
concrete inputs. -/
theorem claim4_witness :
    Helpers.parse_release_date "released on Some Records" = "" ∧
    Metaguru.release_date pageNoDate = .error .valueError ∧
    Helpers.parse_catalognum "00M" "" "" = "" ∧
    Helpers.parse_track_name "&$%@#!" =
      { track_alt := none, artist := none, title := some "&$%@#!" } ∧
    Metaguru.country pageNoOnes = .ok "XW" :=
  ⟨claim4_pattern_miss_defaults_amended.1 "released on Some Records" rfl,
   claim4_pattern_miss_defaults_amended.2.1 pageNoDate rfl,
   claim4_pattern_miss_defaults_amended.2.2.1 "00M" "" "" rfl rfl rfl rfl,
   claim4_pattern_miss_defaults_amended.2.2.2.1 "&$%@#!" rfl,
   claim4_pattern_miss_defaults_amended.2.2.2.2 pageNoOnes rfl⟩

/-- C6 (amended): `parse_catalognum` tries the description-labelled
pattern, the bracketed quick pattern on the album title, then the anchored
pattern on the disc title and the album title — each on the
exclusion-cleaned string — returning the first non-empty capture of the
first attempt that yields one, and "" when none does; a bracketed
catalog-shaped code in the album title is returned exactly provided the
title survives exclusion-removal unchanged (codes overlapping the
exclusion patterns, such as year tokens, can be mangled and missed). -/
theorem claim6_catalognum_amended (album disctitle description : String) :
    (∀ t, Helpers.catalognumAttempt descCatalognumRE description [1, 2] = some t →
       Helpers.parse_catalognum album disctitle description = t) ∧
    (Helpers.catalognumAttempt descCatalognumRE description [1, 2] = none →
     reSubAll catalognumExclRE album.data = album.data →
     ∀ st en caps c, reSearch quickCatalognumRE album.data = some (st, en, caps) →
       capText album.data caps 1 = some c → c ≠ [] →
       Helpers.parse_catalognum album disctitle description = ofChars c) ∧
    (Helpers.catalognumAttempt descCatalognumRE description [1, 2] = none →
     Helpers.catalognumAttempt quickCatalognumRE album [1] = none →
     Helpers.catalognumAttempt catalognumRE disctitle [1, 2] = none →
     Helpers.catalognumAttempt catalognumRE album [1, 2] = none →
     Helpers.parse_catalognum album disctitle description = "") := by
  refine ⟨?_, ?_, ?_⟩
  · intro t h
    unfold Helpers.parse_catalognum
    rw [h]
  · intro hdesc hexcl st en caps c hq hc hne
    unfold Helpers.parse_catalognum
    rw [hdesc]
    have hquick : Helpers.catalognumAttempt quickCatalognumRE album [1]
        = some (ofChars c) := by
      unfold Helpers.catalognumAttempt
      rw [hexcl, hq]
      simp [List.firstM, hc, hne]
    rw [hquick]
  · intro h1 h2 h3 h4
    unfold Helpers.parse_catalognum
    rw [h1, h2, h3, h4]

/-- C6 counterexample: the album title "[ABCD-2020]" carries a bracketed
catalog-shaped code (the quick pattern matches it with capture
"ABCD-2020"), yet `parse_catalognum` returns "" because exclusion-removal
first deletes the year token "2020" from the searched string. -/
theorem claim6_counterexample :
    (reSearch quickCatalognumRE "[ABCD-2020]".data).map
        (fun r => (capText "[ABCD-2020]".data r.2.2 1).map ofChars)
      = some (some "ABCD-2020") ∧
    Helpers.parse_catalognum "[ABCD-2020]" "" "" = "" ∧
    Helpers.parse_catalognum "[ABCD-2020]" "" "" ≠ "ABCD-2020" := by
  refine ⟨rfl, rfl, ?_⟩
  intro h
  rw [show Helpers.parse_catalognum "[ABCD-2020]" "" "" = "" from rfl] at h
  exact absurd h (by decide)

/-- C6 witness: a bracketed code untouched by the exclusion patterns is
returned exactly. -/
theorem claim6_witness :
    Helpers.parse_catalognum "Nice Album [CAT-001]" "" "" = "CAT-001" :=
  (claim6_catalognum_amended "Nice Album [CAT-001]" "" "").2.1
    rfl rfl _ _ _ _ rfl rfl (by decide)

/-- C10: on the album path every assembled track record has `medium = 1`
and `medium_index` equal to its `index`, and on the singleton path the
single track record has `medium = 1` and `medium_index` equal to its
(fixed) index — independently of the release's `mediums` count. -/
theorem claim10_medium_fields :
    (∀ g ia td info, Metaguru.album g ia td = .ok (some info) →
       ∀ t ∈ info.tracks, t.medium = 1 ∧ t.medium_index = t.index) ∧
    (∀ g tr, Metaguru.singleton g = .ok tr →
       tr.medium = 1 ∧ tr.medium_index = tr.index ∧ tr.index = .int 1) := by
  constructor
  · intro g ia td info h t ht
    obtain ⟨medias, chosen, _, hinfo⟩ := album_ok_extract g ia td info h
    have hf := albuminfo_track_fields _ ia td info hinfo t ht
    exact ⟨hf.1, hf.2.1⟩
  · intro g tr h
    exact singleton_fields g tr h

/-- C10 witness: the two-disc vinyl page (`mediums = 2`) still records
`medium = 1` and `medium_index = index` on every track, as does the
singleton path. -/
theorem claim10_witness :
    Metaguru.album pageFull true wDate = .ok (some pageFullAlbum) ∧
    pageFullAlbum.mediums = 2 ∧
    (∀ t ∈ pageFullAlbum.tracks, t.medium = 1 ∧ t.medium_index = t.index) ∧
    Metaguru.singleton pageSingle = .ok pageSingleTrack ∧
    pageSingleTrack.medium = 1 ∧
    pageSingleTrack.medium_index = pageSingleTrack.index :=
  ⟨rfl, rfl,
   claim10_medium_fields.1 pageFull true wDate pageFullAlbum rfl,
   rfl,
   (claim10_medium_fields.2 pageSingle pageSingleTrack rfl).1,
   (claim10_medium_fields.2 pageSingle pageSingleTrack rfl).2.1⟩

end Bandcamp
